import Mathlib

/-!
Verification of the plxscripting remote-object proxy layer.

This file gives a shallow embedding of the identity cache / proxy factory
(`plxproxyfactory.py`), the result interpreter and session orchestrator
(`server.py`), and the proxy variant hierarchy (`plxproxy.py`), and proves
the documented cache, identity, pagination, collapse, enumeration and
error-handling properties against those definitions.

The remote application server is an external collaborator reached through a
narrow request/response contract; its responses are abstracted as oracle
functions, and every request issued by the embedded code is recorded in an
explicit event trace so that ordering and call-count properties can be
stated.
-/

/-- First-match association-list lookup with decidable key equality.  This is
the Lean counterpart of Python dictionary membership/indexing used by the
proxy caches (`proxy_object_cache`, the three query caches, ...). -/
def alookup {κ α : Type} [DecidableEq κ] : List (κ × α) → κ → Option α
  | [], _ => none
  | p :: ps, k => if p.1 = k then some p.2 else alookup ps k

theorem alookup_nil {κ α : Type} [DecidableEq κ] (k : κ) :
    alookup ([] : List (κ × α)) k = none := rfl

theorem alookup_cons {κ α : Type} [DecidableEq κ] (p : κ × α) (ps : List (κ × α)) (k : κ) :
    alookup (p :: ps) k = if p.1 = k then some p.2 else alookup ps k := rfl

theorem alookup_cons_self {κ α : Type} [DecidableEq κ] (k : κ) (a : α) (ps : List (κ × α)) :
    alookup ((k, a) :: ps) k = some a := by
  simp [alookup]

/-- Membership of the witnessing pair, extracted from a successful lookup. -/
theorem alookup_mem {κ α : Type} [DecidableEq κ] {l : List (κ × α)} {k : κ} {a : α}
    (h : alookup l k = some a) : (k, a) ∈ l := by
  induction l with
  | nil => simp [alookup] at h
  | cons p ps ih =>
    by_cases hk : p.1 = k
    · simp [alookup, hk] at h
      have hp : p = (k, a) := by
        cases p
        simp_all
      rw [hp]
      exact List.mem_cons_self _ _
    · simp [alookup, hk] at h
      exact List.mem_cons_of_mem _ (ih h)

/-- A failed lookup means the key is absent from the key list. -/
theorem alookup_eq_none_not_mem {κ α : Type} [DecidableEq κ] {l : List (κ × α)} {k : κ}
    (h : alookup l k = none) : k ∉ l.map Prod.fst := by
  induction l with
  | nil => simp
  | cons p ps ih =>
    rw [alookup_cons] at h
    by_cases hk : p.1 = k
    · simp [hk] at h
    · simp only [hk, if_false] at h
      simp only [List.map_cons, List.mem_cons]
      intro hc
      rcases hc with hc | hc
      · exact hk hc.symm
      · exact ih h hc

/- ======================================================================
   Identity Cache & Proxy Factory  (plxproxyfactory.py)
   ====================================================================== -/

/-- The proxy variant constructors of `plxproxy.py`, the dispatch targets of
`PlxProxyFactory.create_plx_proxy_object` / `_create_plx_proxy_property`. -/
inductive ProxyVariant : Type
  | values
  | material
  | objectListable
  | plainObject
  | ipBoolean
  | ipEnumeration
  | ipDouble
  | ipInteger
  | ipObjectListable
  | ipObject
  | ipText
  | ipStaged
  | propertyListable
  | plainProperty
  deriving DecidableEq, Repr

/-- The construction metadata supplied to a resolve call: type tag,
listable flag, property name and owner token. -/
structure ProxyMeta : Type where
  plxType : String
  isListable : Bool
  propertyName : String
  ownerGuid : Option String
  deriving DecidableEq, Repr

/-- A live proxy handle: the opaque remote token plus the metadata and the
variant it was constructed with.  Two handles are "the same object" exactly
when they are equal values stored under the same token. -/
structure ProxyHandle : Type where
  guid : String
  meta : ProxyMeta
  variant : ProxyVariant
  deriving DecidableEq, Repr

/-- `PlxProxyFactory._create_plx_proxy_property`: dispatch of a type tag to
the intrinsic-property variant constructors. -/
def dispatch_property_variant (plx_type : String) (is_listable : Bool) : ProxyVariant :=
  if plx_type = "Boolean" then .ipBoolean
  else if plx_type.startsWith "enum" then .ipEnumeration
  else if plx_type = "Number" then .ipDouble
  else if plx_type = "Integer" then .ipInteger
  else if plx_type = "Object" then
    (if is_listable then .ipObjectListable else .ipObject)
  else if plx_type = "Text" then .ipText
  else if plx_type.startsWith "staged" then .ipStaged
  else if is_listable then .propertyListable
  else .plainProperty

/-- The variant dispatch of `PlxProxyFactory.create_plx_proxy_object`: a
supplied owner selects the property constructors, otherwise the type tag
and the listable flag select the object constructors. -/
def dispatch_variant (plx_type : String) (is_listable : Bool)
    (owner : Option String) : ProxyVariant :=
  match owner with
  | some _ => dispatch_property_variant plx_type is_listable
  | none =>
    if plx_type = "PlxValues" then .values
    else if plx_type = "SoilMat" then .material
    else if is_listable then .objectListable
    else .plainObject

/-- `PlxProxyFactory.create_plx_proxy_object`: if the token is already mapped
the existing handle is returned unconditionally and the cache is unchanged;
otherwise the dispatched variant is constructed and registered in the
token-to-handle map before being returned. -/
def create_plx_proxy_object (cache : List (String × ProxyHandle)) (guid : String)
    (plx_type : String) (is_listable : Bool) (property_name : String)
    (owner : Option String) : ProxyHandle × List (String × ProxyHandle) :=
  match alookup cache guid with
  | some h => (h, cache)
  | none =>
    let h : ProxyHandle :=
      ⟨guid, ⟨plx_type, is_listable, property_name, owner⟩,
        dispatch_variant plx_type is_listable owner⟩
    (h, (guid, h) :: cache)

/-- `PlxProxyFactory.clear_proxy_object_cache`: wipes the token-to-handle
map. -/
def clear_proxy_object_cache (_cache : List (String × ProxyHandle)) :
    List (String × ProxyHandle) := []

/-- A committed claim theorem helper: the keys of the identity map. -/
def cacheKeys (cache : List (String × ProxyHandle)) : List String :=
  cache.map Prod.fst

theorem create_plx_proxy_object_hit (cache : List (String × ProxyHandle))
    (guid : String) {h : ProxyHandle} (hh : alookup cache guid = some h)
    (plx_type : String) (is_listable : Bool) (property_name : String)
    (owner : Option String) :
    create_plx_proxy_object cache guid plx_type is_listable property_name owner
      = (h, cache) := by
  simp [create_plx_proxy_object, hh]

theorem create_plx_proxy_object_miss (cache : List (String × ProxyHandle))
    (guid : String) (hh : alookup cache guid = none)
    (plx_type : String) (is_listable : Bool) (property_name : String)
    (owner : Option String) :
    create_plx_proxy_object cache guid plx_type is_listable property_name owner
      = (⟨guid, ⟨plx_type, is_listable, property_name, owner⟩,
          dispatch_variant plx_type is_listable owner⟩,
         (guid, ⟨guid, ⟨plx_type, is_listable, property_name, owner⟩,
          dispatch_variant plx_type is_listable owner⟩) :: cache) := by
  simp [create_plx_proxy_object, hh]

/-- Claim C2: for every token, while the identity cache has not been cleared,
at most one live proxy handle exists per token (resolve preserves key
uniqueness and never creates a second handle for a mapped token); a resolve
call with a token already in the map returns the existing handle
unconditionally, discarding the newly supplied type tag, listable flag,
property name and owner; and a newly built handle is registered in the
token-to-handle map before being returned. -/
theorem C2_identity_cache_resolve (cache : List (String × ProxyHandle))
    (guid plx_type : String) (is_listable : Bool) (property_name : String)
    (owner : Option String) :
    (∀ h : ProxyHandle, alookup cache guid = some h →
      ∀ plx_type' : String, ∀ is_listable' : Bool, ∀ property_name' : String,
      ∀ owner' : Option String,
        create_plx_proxy_object cache guid plx_type' is_listable' property_name' owner'
          = (h, cache)) ∧
    (alookup cache guid = none →
      alookup (create_plx_proxy_object cache guid plx_type is_listable property_name owner).2 guid
        = some (create_plx_proxy_object cache guid plx_type is_listable property_name owner).1) ∧
    ((cacheKeys cache).Nodup →
      (cacheKeys
        (create_plx_proxy_object cache guid plx_type is_listable property_name owner).2).Nodup) := by
  refine ⟨?_, ?_, ?_⟩
  · intro h hh plx_type' is_listable' property_name' owner'
    exact create_plx_proxy_object_hit cache guid hh plx_type' is_listable' property_name' owner'
  · intro hh
    rw [create_plx_proxy_object_miss cache guid hh]
    exact alookup_cons_self _ _ _
  · intro hnd
    cases hcl : alookup cache guid with
    | some h =>
      rw [create_plx_proxy_object_hit cache guid hcl]
      exact hnd
    | none =>
      rw [create_plx_proxy_object_miss cache guid hcl]
      simp only [cacheKeys, List.map_cons, List.nodup_cons]
      exact ⟨alookup_eq_none_not_mem hcl, hnd⟩

/-- Witness for C2 at a concrete cache: the token "T1" is already mapped, so
resolving it with fresh metadata returns the stored handle and leaves the
cache unchanged; resolving the unmapped token "T2" registers it; key
uniqueness is preserved. -/
theorem C2_identity_cache_resolve_witness :
    (create_plx_proxy_object
        [("T1", ⟨"T1", ⟨"Point", false, "", none⟩, .plainObject⟩)]
        "T1" "Line" true "P" (some "O")
      = (⟨"T1", ⟨"Point", false, "", none⟩, .plainObject⟩,
         [("T1", ⟨"T1", ⟨"Point", false, "", none⟩, .plainObject⟩)])) ∧
    (alookup (create_plx_proxy_object
        [("T1", ⟨"T1", ⟨"Point", false, "", none⟩, .plainObject⟩)]
        "T2" "Line" true "P" none).2 "T2"
      = some (create_plx_proxy_object
        [("T1", ⟨"T1", ⟨"Point", false, "", none⟩, .plainObject⟩)]
        "T2" "Line" true "P" none).1) ∧
    (cacheKeys (create_plx_proxy_object
        [("T1", ⟨"T1", ⟨"Point", false, "", none⟩, .plainObject⟩)]
        "T2" "Line" true "P" none).2).Nodup := by
  have h := C2_identity_cache_resolve
    [("T1", ⟨"T1", ⟨"Point", false, "", none⟩, .plainObject⟩)]
    "T2" "Line" true "P" none
  refine ⟨?_, h.2.1 (by decide), h.2.2 (by decide)⟩
  have h1 := C2_identity_cache_resolve
    [("T1", ⟨"T1", ⟨"Point", false, "", none⟩, .plainObject⟩)]
    "T1" "Line" true "P" (some "O")
  exact h1.1 ⟨"T1", ⟨"Point", false, "", none⟩, .plainObject⟩ (by decide) "Line" true "P" (some "O")

/- ======================================================================
   Result Interpreter  (server.py, ResultHandler)
   ====================================================================== -/

/-- The three shapes a handled returned-object list can take: a bare handle,
a list of handles, or the explicit no-result marker (Python `None`). -/
inductive InterpResult (α : Type) : Type
  | bare (a : α)
  | list (l : List α)
  | noResult
  deriving DecidableEq, Repr

/-- `ResultHandler._create_proxies_from_returned_objects`: a one-element
list collapses to the bare element unless `allow_one_item_list_result` is
set; the empty list yields the no-result marker (kept distinct from any
boolean-falsy valid value); otherwise the list itself is returned. -/
def create_proxies_from_returned_objects {α : Type} :
    List α → Bool → InterpResult α
  | [a], false => .bare a
  | [], _ => .noResult
  | l, _ => .list l

/-- The SUBLIST / MEMBERSUBLIST branches of
`ResultHandler.handle_list_response`: slice results are interpreted with
`allow_one_item_list_result=True`. -/
def handle_list_sublist {α : Type} (output_data : List α) : InterpResult α :=
  create_proxies_from_returned_objects output_data true

/-- The INDEX / MEMBERINDEX branches of
`ResultHandler.handle_list_response`: a one-element wrapped result with
collapse semantics. -/
def handle_list_index {α : Type} (output_data : α) : InterpResult α :=
  create_proxies_from_returned_objects [output_data] false

/-- `ResultHandler.handle_selection_response`: selection results are
interpreted with list semantics, and a no-result is turned into the empty
list (no selected objects is perfectly valid). -/
def handle_selection_response {α : Type} (selection_objects : List α) : List α :=
  match create_proxies_from_returned_objects selection_objects true with
  | .noResult => []
  | .list l => l
  | .bare a => [a]

/-- Claim C4 counterexample: an empty sublist (slice) result is interpreted
as the no-result marker `None`, not as a list — so slice results are *not*
always returned as lists at length ≤ 1, refuting the claim at the concrete
input `[]`. -/
theorem C4_counterexample :
    handle_list_sublist ([] : List Nat) = .noResult ∧
    InterpResult.noResult ≠ InterpResult.list ([] : List Nat) := by
  exact ⟨rfl, by decide⟩

/-- Claim C4 (amended): a returned-object list of length 1 yields the bare
handle unless the call site requested list semantics; a list of length 0
yields the explicit no-result marker `None`, distinct from any list or bare
value — including for sublist (slice) results, which at length 0 yield the
no-result marker rather than a list; a list of length greater than 1 yields
a list; sublist and selection results of length 1 remain lists, and an
empty selection yields the empty list. -/
theorem C4_collapse_rule {α : Type} (a : α) (l : List α) (b : Bool) :
    (create_proxies_from_returned_objects [a] false = .bare a) ∧
    (create_proxies_from_returned_objects ([] : List α) b = .noResult) ∧
    (1 < l.length → create_proxies_from_returned_objects l b = .list l) ∧
    (handle_list_sublist [a] = .list [a]) ∧
    (handle_list_index a = .bare a) ∧
    (handle_selection_response [a] = [a]) ∧
    (handle_selection_response ([] : List α) = []) := by
  refine ⟨rfl, ?_, ?_, rfl, rfl, rfl, rfl⟩
  · cases b <;> rfl
  · intro hl
    match l with
    | [] => simp at hl
    | [x] => simp at hl
    | x :: y :: rest => cases b <;> rfl

/-- Witness for C4 (amended) at concrete inputs: the two-element list
`[1, 2]` is returned as a list under both flag values. -/
theorem C4_collapse_rule_witness :
    create_proxies_from_returned_objects [1, 2] true = .list [1, 2] ∧
    create_proxies_from_returned_objects [1, 2] false = .list [1, 2] := by
  exact ⟨(C4_collapse_rule 1 [1, 2] true).2.2.1 (by decide),
         (C4_collapse_rule 1 [1, 2] false).2.2.1 (by decide)⟩

/- ======================================================================
   Owner ordering in `ResultHandler._create_proxy_object`
   ====================================================================== -/

/-- Events of a `ResultHandler._create_proxy_object` pass, in issue order:
fetching the owner's full member set (`server.get_object_attributes(owner)`)
and resolving the entity through the factory
(`create_plx_proxy_object`). -/
inductive CPOEvent : Type
  | fetchOwnerMembers (ownerGuid : String)
  | resolveChild (guid : String)
  deriving DecidableEq, Repr

/-- The owner branch of `ResultHandler._create_proxy_object` for a non-JSON
returned object: when no owner argument is supplied and the payload carries
an owner token, the owner is looked up in the identity cache — if it is
absent a `PlxScriptingError` ("Missing owner object for property object!")
is raised; if it is present and the entity's own token is not yet cached,
the owner's full member set is fetched before the child proxy is
resolved. -/
def create_proxy_object_trace (identity : List (String × ProxyHandle))
    (guid : String) (ownerGuid : Option String) (owner : Option ProxyHandle) :
    Except String (List CPOEvent) :=
  match owner with
  | some _ => .ok [.resolveChild guid]
  | none =>
    match ownerGuid with
    | none => .ok [.resolveChild guid]
    | some og =>
      match alookup identity og with
      | none => .error "Missing owner object for property object!"
      | some _ =>
        if (alookup identity guid).isNone then
          .ok [.fetchOwnerMembers og, .resolveChild guid]
        else
          .ok [.resolveChild guid]

/-- Claim C7 counterexample: with the owner token "OG" absent from the
identity cache, the Result Interpreter raises the missing-owner consistency
error instead of fetching the owner's member set, refuting the claim at the
concrete input of an empty identity cache. -/
theorem C7_counterexample :
    create_proxy_object_trace ([] : List (String × ProxyHandle)) "G1" (some "OG") none
      = .error "Missing owner object for property object!" ∧
    create_proxy_object_trace ([] : List (String × ProxyHandle)) "G1" (some "OG") none
      ≠ .ok [.fetchOwnerMembers "OG", .resolveChild "G1"] := by
  refine ⟨rfl, ?_⟩
  intro h
  exact Except.noConfusion h

/-- Claim C7 (amended): for a nested property entity whose owner token is
absent from the identity cache, a consistency error is raised; when the
owner token is present but the entity's *own* token is not yet in the
identity cache, the owner's full member set is fetched strictly before the
child proxy is constructed; when both tokens are present no members fetch
is issued. -/
theorem C7_owner_fetch_order (identity : List (String × ProxyHandle))
    (guid og : String) :
    (alookup identity og = none →
      create_proxy_object_trace identity guid (some og) none
        = .error "Missing owner object for property object!") ∧
    (∀ h : ProxyHandle, alookup identity og = some h → alookup identity guid = none →
      create_proxy_object_trace identity guid (some og) none
        = .ok [.fetchOwnerMembers og, .resolveChild guid]) ∧
    (∀ h h' : ProxyHandle, alookup identity og = some h → alookup identity guid = some h' →
      create_proxy_object_trace identity guid (some og) none
        = .ok [.resolveChild guid]) := by
  refine ⟨?_, ?_, ?_⟩
  · intro hog
    simp [create_proxy_object_trace, hog]
  · intro h hog hg
    simp [create_proxy_object_trace, hog, hg]
  · intro h h' hog hg
    simp [create_proxy_object_trace, hog, hg]

/-- Witness for C7 (amended): with the owner "OG" cached and the child "G1"
not yet cached, the members fetch for "OG" precedes the resolution of
"G1". -/
theorem C7_owner_fetch_order_witness :
    create_proxy_object_trace
        [("OG", ⟨"OG", ⟨"Line", false, "", none⟩, .plainObject⟩)]
        "G1" (some "OG") none
      = .ok [.fetchOwnerMembers "OG", .resolveChild "G1"] := by
  exact (C7_owner_fetch_order
      [("OG", ⟨"OG", ⟨"Line", false, "", none⟩, .plainObject⟩)] "G1" "OG").2.1
    ⟨"OG", ⟨"Line", false, "", none⟩, .plainObject⟩ (by decide) (by decide)

/- ======================================================================
   Session / Query Orchestrator  (server.py, Server)
   ====================================================================== -/

/-- Requests issued to the Request Gateway (the HTTP connection). -/
inductive Req : Type
  | namedObject (name : String)
  | propertyValues (guids : List String) (propName : String) (phase : Option String)
  | listQuery (guid methodName : String) (startindex stopindex : Option Int)
      (memberName : Option String)
  | members (guid : String)
  | commands (cmds : List String)
  | environment (cmd filename : String)
  deriving DecidableEq, Repr

/-- Observable events of a Server call, in program order: query-cache
invalidation (`reset_caches`), identity-cache clearing
(`clear_proxy_object_cache`) and gateway requests. -/
inductive Event : Type
  | invalidate
  | clearIdentity
  | gateway (r : Req)
  deriving DecidableEq, Repr

def isGatewayEvent : Event → Bool
  | .gateway _ => true
  | _ => false

/-- The Server state: the cache-enabled flag, the three query-cache
namespaces (`__globals_cache`, `__values_cache`, `__listables_cache`), the
attribute-cache population flags of the registered volatile (material)
proxies (`_proxies_to_reset`), and the trace of events issued so far. -/
structure SState (α : Type) : Type where
  allowCaching : Bool
  globalsCache : List (String × α)
  valuesCache : List ((String × String × Option String) × α)
  listablesCache : List ((String × String × Option Int × Option Int × Option String) × α)
  materialAttrCache : List (String × Bool)
  events : List Event

/-- Number of gateway round trips issued so far. -/
def gatewayCount {α : Type} (s : SState α) : Nat :=
  (s.events.filter isGatewayEvent).length

/-- `Server.reset_caches`: reset every registered volatile proxy's attribute
cache and clear the three query-cache namespaces. -/
def reset_caches {α : Type} (s : SState α) : SState α :=
  { s with
    globalsCache := []
    valuesCache := []
    listablesCache := []
    materialAttrCache := s.materialAttrCache.map (fun p => (p.1, false))
    events := s.events ++ [.invalidate] }

/-- `Server.__get_with_cache`: return the cached result when caching is
enabled and the key is present; otherwise run the fallback, store the
result when caching is enabled, and report whether the fallback ran. -/
def get_with_cache {κ α : Type} [DecidableEq κ] (allow_caching : Bool) (key : κ)
    (cache : List (κ × α)) (func_if_not_found : Unit → α) :
    α × List (κ × α) × Bool :=
  if allow_caching then
    match alookup cache key with
    | some v => (v, cache, false)
    | none =>
      let result := func_if_not_found ()
      (result, (key, result) :: cache, true)
  else
    (func_if_not_found (), cache, true)

/-- `Server.get_named_object`: named-object lookup through the globals
cache. -/
def get_named_object {α : Type} (oracle : Req → α) (s : SState α)
    (object_name : String) : α × SState α :=
  let r := get_with_cache s.allowCaching object_name s.globalsCache
    (fun _ => oracle (.namedObject object_name))
  (r.1, { s with
    globalsCache := r.2.1
    events := s.events ++
      (if r.2.2 then [.gateway (.namedObject object_name)] else []) })

/-- `Server.get_objects_property`: property-value lookup through the values
cache, keyed by the space-joined operand tokens, the property name and the
optional phase token. -/
def get_objects_property {α : Type} (oracle : Req → α) (s : SState α)
    (guids : List String) (prop_name : String) (phase : Option String) :
    α × SState α :=
  let r := get_with_cache s.allowCaching
    (String.intercalate " " guids, prop_name, phase) s.valuesCache
    (fun _ => oracle (.propertyValues guids prop_name phase))
  (r.1, { s with
    valuesCache := r.2.1
    events := s.events ++
      (if r.2.2 then [.gateway (.propertyValues guids prop_name phase)] else []) })

/-- `Server.call_listable_method`: collection-method call through the
listables cache, keyed by the collection token, the method name and the
optional index/member parameters. -/
def call_listable_method {α : Type} (oracle : Req → α) (s : SState α)
    (guid method_name : String) (startindex stopindex : Option Int)
    (property_name : Option String) : α × SState α :=
  let r := get_with_cache s.allowCaching
    (guid, method_name, startindex, stopindex, property_name) s.listablesCache
    (fun _ => oracle (.listQuery guid method_name startindex stopindex property_name))
  (r.1, { s with
    listablesCache := r.2.1
    events := s.events ++
      (if r.2.2 then
        [.gateway (.listQuery guid method_name startindex stopindex property_name)]
      else []) })

/-- `Server.call_commands`: reset the caches, then issue the commands
request to the gateway. -/
def call_commands {α : Type} (s : SState α) (cmds : List String) : SState α :=
  let s1 := reset_caches s
  { s1 with events := s1.events ++ [.gateway (.commands cmds)] }

/-- `Server.call_plx_object_method`: reset the caches, build the method-call
command line, then send it (which resets once more inside
`call_commands`). -/
def call_plx_object_method {α : Type} (s : SState α) (cmd : String) : SState α :=
  call_commands (reset_caches s) [cmd]

/-- `Server.set_object_property`: reset the caches, then delegate the "set"
command to `call_plx_object_method`. -/
def set_object_property {α : Type} (s : SState α) (cmd : String) : SState α :=
  call_plx_object_method (reset_caches s) cmd

/-- `Server.new/recover/open/close`: issue the environment request to the
gateway first; only when the gateway reports success are the query caches
reset and the identity cache cleared. -/
def server_project_cmd {α : Type} (s : SState α) (cmd filename : String)
    (result : Bool) : SState α :=
  let s1 : SState α :=
    { s with events := s.events ++ [.gateway (.environment cmd filename)] }
  if result then
    let s2 := reset_caches s1
    { s2 with events := s2.events ++ [.clearIdentity] }
  else s1

def server_new {α : Type} (s : SState α) (result : Bool) : SState α :=
  server_project_cmd s "new" "" result

def server_recover {α : Type} (s : SState α) (result : Bool) : SState α :=
  server_project_cmd s "recover" "" result

def server_open {α : Type} (s : SState α) (filename : String) (result : Bool) : SState α :=
  server_project_cmd s "open" filename result

def server_close {α : Type} (s : SState α) (result : Bool) : SState α :=
  server_project_cmd s "close" "" result

/-- `PlxProxyMaterial.__init__` registers the proxy in the Server's reset
list (`add_proxy_to_reset`); its attribute cache starts unpopulated. -/
def register_material {α : Type} (s : SState α) (guid : String) : SState α :=
  { s with materialAttrCache := (guid, false) :: s.materialAttrCache }

/-- `PlxProxyObject._ensure_cache_is_valid` on a registered material proxy:
when the attribute cache is unpopulated (dropped by `reset_cache`), the
member set is fetched from the gateway and the cache repopulated; the
returned flag reports whether a fetch happened. -/
def material_ensure_cache {α : Type} (s : SState α) (guid : String) :
    SState α × Bool :=
  match alookup s.materialAttrCache guid with
  | some true => (s, false)
  | _ =>
    ({ s with
        materialAttrCache :=
          s.materialAttrCache.map (fun p => if p.1 = guid then (p.1, true) else p)
        events := s.events ++ [.gateway (.members guid)] }, true)

/-- A concrete warm server state: the named object "Points" is cached and no
events have been issued yet. -/
def warmState : SState Nat :=
  { allowCaching := true
    globalsCache := [("Points", 5)]
    valuesCache := []
    listablesCache := []
    materialAttrCache := []
    events := [] }

/-- Claim C1 counterexample: `Server.close` is a project-level mutating
command, but its trace issues the gateway environment request *first*, with
no invalidation of the three query-cache namespaces before it; and when the
gateway call fails (falsy result) no invalidation happens at all, so the
cached named object "Points" is still warm afterwards. -/
theorem C1_counterexample :
    (server_close warmState false).events = [.gateway (.environment "close" "")] ∧
    (server_close warmState false).globalsCache = [("Points", 5)] := by
  exact ⟨rfl, rfl⟩

/-- Claim C1 (amended): every method call and property-set call invalidates
the three query-cache namespaces strictly before the corresponding gateway
call is issued, so a failed method or property-set call still leaves the
caches cold; project-level commands (new/open/close/recover), however,
issue the gateway environment request first and invalidate the query caches
— and clear the identity cache — only when the gateway reports success, so
a failed project-level command leaves the caches warm. -/
theorem C1_invalidation_ordering {α : Type} (s : SState α) (cmds : List String)
    (cmd filename : String) (result : Bool) :
    ((call_commands s cmds).events
      = s.events ++ [.invalidate, .gateway (.commands cmds)]) ∧
    ((call_plx_object_method s cmd).events
      = s.events ++ [.invalidate, .invalidate, .gateway (.commands [cmd])]) ∧
    ((set_object_property s cmd).events
      = s.events ++
          [.invalidate, .invalidate, .invalidate, .gateway (.commands [cmd])]) ∧
    ((call_commands s cmds).globalsCache = [] ∧
      (call_commands s cmds).valuesCache = [] ∧
      (call_commands s cmds).listablesCache = []) ∧
    ((server_project_cmd s cmd filename result).events
      = s.events ++ [.gateway (.environment cmd filename)]
          ++ (if result then [.invalidate, .clearIdentity] else [])) := by
  refine ⟨?_, ?_, ?_, ⟨rfl, rfl, rfl⟩, ?_⟩
  · simp [call_commands, reset_caches]
  · simp [call_plx_object_method, call_commands, reset_caches]
  · simp [set_object_property, call_plx_object_method, call_commands, reset_caches]
  · cases result <;> simp [server_project_cmd, reset_caches]

theorem get_named_object_hit {α : Type} (oracle : Req → α) (s : SState α)
    (n : String) {v : α} (hc : s.allowCaching = true)
    (hv : alookup s.globalsCache n = some v) :
    get_named_object oracle s n = (v, s) := by
  cases s with
  | mk ac gc vc lc mc ev =>
    simp only at hc hv
    subst hc
    simp [get_named_object, get_with_cache, hv]

theorem get_named_object_miss {α : Type} (oracle : Req → α) (s : SState α)
    (n : String) (hc : s.allowCaching = true)
    (hv : alookup s.globalsCache n = none) :
    get_named_object oracle s n
      = (oracle (.namedObject n),
         { s with
            globalsCache := (n, oracle (.namedObject n)) :: s.globalsCache
            events := s.events ++ [.gateway (.namedObject n)] }) := by
  simp [get_named_object, get_with_cache, hc, hv]

theorem get_named_object_caches {α : Type} (oracle : Req → α) (s : SState α)
    (n : String) (hc : s.allowCaching = true) :
    alookup (get_named_object oracle s n).2.globalsCache n
      = some (get_named_object oracle s n).1 := by
  cases hv : alookup s.globalsCache n with
  | some v =>
    rw [get_named_object_hit oracle s n hc hv]
    exact hv
  | none =>
    rw [get_named_object_miss oracle s n hc hv]
    exact alookup_cons_self _ _ _

theorem get_objects_property_hit {α : Type} (oracle : Req → α) (s : SState α)
    (guids : List String) (pn : String) (ph : Option String) {v : α}
    (hc : s.allowCaching = true)
    (hv : alookup s.valuesCache (String.intercalate " " guids, pn, ph) = some v) :
    get_objects_property oracle s guids pn ph = (v, s) := by
  cases s with
  | mk ac gc vc lc mc ev =>
    simp only at hc hv
    subst hc
    simp [get_objects_property, get_with_cache, hv]

theorem get_objects_property_miss {α : Type} (oracle : Req → α) (s : SState α)
    (guids : List String) (pn : String) (ph : Option String)
    (hc : s.allowCaching = true)
    (hv : alookup s.valuesCache (String.intercalate " " guids, pn, ph) = none) :
    get_objects_property oracle s guids pn ph
      = (oracle (.propertyValues guids pn ph),
         { s with
            valuesCache := ((String.intercalate " " guids, pn, ph),
              oracle (.propertyValues guids pn ph)) :: s.valuesCache
            events := s.events ++ [.gateway (.propertyValues guids pn ph)] }) := by
  simp [get_objects_property, get_with_cache, hc, hv]

theorem get_objects_property_caches {α : Type} (oracle : Req → α) (s : SState α)
    (guids : List String) (pn : String) (ph : Option String)
    (hc : s.allowCaching = true) :
    alookup (get_objects_property oracle s guids pn ph).2.valuesCache
        (String.intercalate " " guids, pn, ph)
      = some (get_objects_property oracle s guids pn ph).1 := by
  cases hv : alookup s.valuesCache (String.intercalate " " guids, pn, ph) with
  | some v =>
    rw [get_objects_property_hit oracle s guids pn ph hc hv]
    exact hv
  | none =>
    rw [get_objects_property_miss oracle s guids pn ph hc hv]
    exact alookup_cons_self _ _ _

theorem call_listable_method_hit {α : Type} (oracle : Req → α) (s : SState α)
    (g mn : String) (a b : Option Int) (pn : Option String) {v : α}
    (hc : s.allowCaching = true)
    (hv : alookup s.listablesCache (g, mn, a, b, pn) = some v) :
    call_listable_method oracle s g mn a b pn = (v, s) := by
  cases s with
  | mk ac gc vc lc mc ev =>
    simp only at hc hv
    subst hc
    simp [call_listable_method, get_with_cache, hv]

theorem call_listable_method_miss {α : Type} (oracle : Req → α) (s : SState α)
    (g mn : String) (a b : Option Int) (pn : Option String)
    (hc : s.allowCaching = true)
    (hv : alookup s.listablesCache (g, mn, a, b, pn) = none) :
    call_listable_method oracle s g mn a b pn
      = (oracle (.listQuery g mn a b pn),
         { s with
            listablesCache := ((g, mn, a, b, pn),
              oracle (.listQuery g mn a b pn)) :: s.listablesCache
            events := s.events ++ [.gateway (.listQuery g mn a b pn)] }) := by
  simp [call_listable_method, get_with_cache, hc, hv]

theorem call_listable_method_caches {α : Type} (oracle : Req → α) (s : SState α)
    (g mn : String) (a b : Option Int) (pn : Option String)
    (hc : s.allowCaching = true) :
    alookup (call_listable_method oracle s g mn a b pn).2.listablesCache (g, mn, a, b, pn)
      = some (call_listable_method oracle s g mn a b pn).1 := by
  cases hv : alookup s.listablesCache (g, mn, a, b, pn) with
  | some v =>
    rw [call_listable_method_hit oracle s g mn a b pn hc hv]
    exact hv
  | none =>
    rw [call_listable_method_miss oracle s g mn a b pn hc hv]
    exact alookup_cons_self _ _ _

theorem gatewayCount_gateway_append {α : Type} (s : SState α) (r : Req)
    (gc : List (String × α))
    (vc : List ((String × String × Option String) × α))
    (lc : List ((String × String × Option Int × Option Int × Option String) × α)) :
    gatewayCount { s with
        globalsCache := gc, valuesCache := vc, listablesCache := lc,
        events := s.events ++ [.gateway r] }
      = gatewayCount s + 1 := by
  simp [gatewayCount, List.filter_append, isGatewayEvent]

/-- Claim C3: with caching enabled, for each of the three read-only lookup
kinds (named-object lookup, property-value lookup, collection-method call)
keyed by its structural signature: a repeated read with the same key and no
intervening mutating call returns the same value from cache with the state
— in particular the gateway trace — unchanged (zero additional gateway
calls); and after a mutating call (every command funnels through
`call_commands`; property sets and method calls reset additionally on the
way) the next read for any key, in particular a previously cached one,
issues exactly one new gateway call.  Successful project-level commands
likewise clear the caches; a failed one performs no invalidation (see the
C1 theorems). -/
theorem C3_query_cache_memoization {α : Type} (oracle : Req → α) (s : SState α)
    (n : String) (guids : List String) (pn : String) (ph : Option String)
    (g mn : String) (a b : Option Int) (lpn : Option String)
    (cmds : List String) (cmd filename : String)
    (hc : s.allowCaching = true) :
    (get_named_object oracle (get_named_object oracle s n).2 n
      = ((get_named_object oracle s n).1, (get_named_object oracle s n).2)) ∧
    (get_objects_property oracle (get_objects_property oracle s guids pn ph).2 guids pn ph
      = ((get_objects_property oracle s guids pn ph).1,
         (get_objects_property oracle s guids pn ph).2)) ∧
    (call_listable_method oracle (call_listable_method oracle s g mn a b lpn).2 g mn a b lpn
      = ((call_listable_method oracle s g mn a b lpn).1,
         (call_listable_method oracle s g mn a b lpn).2)) ∧
    (gatewayCount (get_named_object oracle (call_commands s cmds) n).2
      = gatewayCount (call_commands s cmds) + 1) ∧
    (gatewayCount (get_objects_property oracle (call_commands s cmds) guids pn ph).2
      = gatewayCount (call_commands s cmds) + 1) ∧
    (gatewayCount (call_listable_method oracle (call_commands s cmds) g mn a b lpn).2
      = gatewayCount (call_commands s cmds) + 1) ∧
    (gatewayCount (get_named_object oracle (set_object_property s cmd) n).2
      = gatewayCount (set_object_property s cmd) + 1) ∧
    (gatewayCount (get_named_object oracle (server_project_cmd s cmd filename true) n).2
      = gatewayCount (server_project_cmd s cmd filename true) + 1) := by
  have hrep1 : alookup (get_named_object oracle s n).2.globalsCache n
      = some (get_named_object oracle s n).1 := get_named_object_caches oracle s n hc
  have hrep2 := get_objects_property_caches oracle s guids pn ph hc
  have hrep3 := call_listable_method_caches oracle s g mn a b lpn hc
  have hc1 : (call_commands s cmds).allowCaching = true := hc
  have hc2 : (set_object_property s cmd).allowCaching = true := hc
  have hc3 : (server_project_cmd s cmd filename true).allowCaching = true := hc
  refine ⟨?_, ?_, ?_, ?_, ?_, ?_, ?_, ?_⟩
  · exact get_named_object_hit oracle _ n hc hrep1
  · exact get_objects_property_hit oracle _ guids pn ph hc hrep2
  · exact call_listable_method_hit oracle _ g mn a b lpn hc hrep3
  · rw [get_named_object_miss oracle (call_commands s cmds) n hc1 rfl]
    exact gatewayCount_gateway_append _ _ _ _ _
  · rw [get_objects_property_miss oracle (call_commands s cmds) guids pn ph hc1 rfl]
    exact gatewayCount_gateway_append _ _ _ _ _
  · rw [call_listable_method_miss oracle (call_commands s cmds) g mn a b lpn hc1 rfl]
    exact gatewayCount_gateway_append _ _ _ _ _
  · rw [get_named_object_miss oracle (set_object_property s cmd) n hc2 rfl]
    exact gatewayCount_gateway_append _ _ _ _ _
  · rw [get_named_object_miss oracle (server_project_cmd s cmd filename true) n hc3 rfl]
    exact gatewayCount_gateway_append _ _ _ _ _

/-- Witness for C3 at a concrete oracle and warm state: a repeated
named-object read is served from cache with the state unchanged, and the
read following a mutating command issues exactly one new gateway call. -/
theorem C3_query_cache_memoization_witness :
    (get_named_object (fun _ => 7) (get_named_object (fun _ => 7) warmState "Points").2 "Points"
      = ((get_named_object (fun _ => 7) warmState "Points").1,
         (get_named_object (fun _ => 7) warmState "Points").2)) ∧
    (gatewayCount (get_named_object (fun _ => 7) (call_commands warmState ["line 0 0 1 1"]) "Points").2
      = gatewayCount (call_commands warmState ["line 0 0 1 1"]) + 1) := by
  have h := C3_query_cache_memoization (fun _ => 7) warmState "Points" ["g1"] "X" none
    "g1" "count" none none none ["line 0 0 1 1"] "close" "" (by decide)
  exact ⟨h.1, h.2.2.2.1⟩

/-- Dropping every value of a Boolean association list preserves the key
and maps any stored flag to `false`. -/
theorem alookup_map_false {l : List (String × Bool)} {k : String} {b : Bool}
    (h : alookup l k = some b) :
    alookup (l.map (fun p => (p.1, false))) k = some false := by
  induction l with
  | nil => simp [alookup] at h
  | cons p ps ih =>
    by_cases hk : p.1 = k
    · simp [alookup, hk]
    · simp only [alookup_cons, hk, if_false] at h
      simpa [alookup, hk] using ih h

/-- Claim C9: for every registered volatile-schema (material) proxy and
every mutating command issued through the Session (`call_commands`,
`call_plx_object_method`, `set_object_property`), the proxy's attribute
cache is dropped even though its identity token stays registered unchanged,
and the next attribute access re-fetches its member set from the
gateway. -/
theorem C9_material_cache_reset {α : Type} (s : SState α) (guid : String) (b : Bool)
    (cmds : List String) (cmd : String)
    (hreg : alookup s.materialAttrCache guid = some b) :
    (alookup (call_commands s cmds).materialAttrCache guid = some false ∧
      (material_ensure_cache (call_commands s cmds) guid).2 = true) ∧
    (alookup (call_plx_object_method s cmd).materialAttrCache guid = some false ∧
      (material_ensure_cache (call_plx_object_method s cmd) guid).2 = true) ∧
    (alookup (set_object_property s cmd).materialAttrCache guid = some false ∧
      (material_ensure_cache (set_object_property s cmd) guid).2 = true) := by
  have h1 : alookup (call_commands s cmds).materialAttrCache guid = some false :=
    alookup_map_false hreg
  have h2 : alookup (call_plx_object_method s cmd).materialAttrCache guid = some false :=
    alookup_map_false (alookup_map_false hreg)
  have h3 : alookup (set_object_property s cmd).materialAttrCache guid = some false :=
    alookup_map_false (alookup_map_false (alookup_map_false hreg))
  refine ⟨⟨h1, ?_⟩, ⟨h2, ?_⟩, ⟨h3, ?_⟩⟩
  · simp [material_ensure_cache, h1]
  · simp [material_ensure_cache, h2]
  · simp [material_ensure_cache, h3]

/-- A concrete server state with one registered material proxy "M1" whose
attribute cache is currently populated. -/
def materialState : SState Nat :=
  { allowCaching := true
    globalsCache := []
    valuesCache := []
    listablesCache := []
    materialAttrCache := [("M1", true)]
    events := [] }

/-- Witness for C9 at the concrete state: after a mutating command the
material proxy "M1" has its attribute cache dropped and the next access
re-fetches. -/
theorem C9_material_cache_reset_witness :
    alookup (call_commands materialState ["line 0 0 1 1"]).materialAttrCache "M1" = some false ∧
    (material_ensure_cache (call_commands materialState ["line 0 0 1 1"]) "M1").2 = true := by
  exact (C9_material_cache_reset materialState "M1" true ["line 0 0 1 1"] "setproperties" (by decide)).1

/- ======================================================================
   Root/global attribute resolution  (plxproxy.py, PlxProxyGlobalObject)
   ====================================================================== -/

/-- Requests a global-object attribute resolution can issue. -/
inductive GEvent : Type
  | namedObjectLookup (name : String)
  | membersFetch
  deriving DecidableEq, Repr

/-- `PlxProxyGlobalObject._getattr`: the cached member map is consulted
first and a cached entry is returned without any remote call; only when the
name is absent from the member cache is the remote named-object lookup
issued; if that also misses, an AttributeError is raised. -/
def global_getattr_once {α : Type} (attr_cache : List (String × α))
    (named : String → Option α) (attr_name : String) :
    Except Unit α × List GEvent :=
  match alookup attr_cache attr_name with
  | some v => (.ok v, [])
  | none =>
    match named attr_name with
    | some v => (.ok v, [.namedObjectLookup attr_name])
    | none => (.error (), [.namedObjectLookup attr_name])

/-- `PlxProxyGlobalObject.__getattr__`: try `_getattr` against the current
member cache; on AttributeError refill the member cache from the members
resource (`_ensure_cache_is_valid`) and retry `_getattr` once more. -/
def global_getattr {α : Type} (attr_cache refilled : List (String × α))
    (named : String → Option α) (attr_name : String) :
    Except Unit α × List GEvent :=
  match global_getattr_once attr_cache named attr_name with
  | (.ok v, evs) => (.ok v, evs)
  | (.error _, evs) =>
    let r := global_getattr_once refilled named attr_name
    (r.1, evs ++ [.membersFetch] ++ r.2)

/-- Claim C6 counterexample: with "Points" present in the cached member map
(value 1) while the remote named-object lookup would return a different
object (value 2), resolution returns the cached member entry and issues *no*
named-object lookup — refuting the claim that the named-object lookup is
always tried first, bypassing the member cache. -/
theorem C6_counterexample :
    global_getattr_once [("Points", 1)] (fun _ => some 2) "Points" = (.ok 1, []) := by
  rfl

/-- Claim C6 (amended): attribute resolution on the root/global proxy
consults the cached member map first and returns a cached entry without
issuing any remote lookup; the remote named-object lookup is issued only
when the name is absent from the member cache; and when both miss, the
member cache is refilled from the members resource and resolution is
retried against the refilled cache. -/
theorem C6_global_resolution_order {α : Type} (attr_cache refilled : List (String × α))
    (named : String → Option α) (attr_name : String) :
    (∀ v : α, alookup attr_cache attr_name = some v →
      global_getattr attr_cache refilled named attr_name = (.ok v, [])) ∧
    (∀ v : α, alookup attr_cache attr_name = none → named attr_name = some v →
      global_getattr attr_cache refilled named attr_name
        = (.ok v, [.namedObjectLookup attr_name])) ∧
    (alookup attr_cache attr_name = none → named attr_name = none →
      global_getattr attr_cache refilled named attr_name
        = ((global_getattr_once refilled named attr_name).1,
           [.namedObjectLookup attr_name, .membersFetch]
             ++ (global_getattr_once refilled named attr_name).2)) := by
  refine ⟨?_, ?_, ?_⟩
  · intro v hv
    simp [global_getattr, global_getattr_once, hv]
  · intro v hv hn
    simp [global_getattr, global_getattr_once, hv, hn]
  · intro hv hn
    simp [global_getattr, global_getattr_once, hv, hn]

/-- Witness for C6 (amended) at concrete inputs: a cached member short
circuits with no events; an uncached name goes to the named-object
lookup. -/
theorem C6_global_resolution_order_witness :
    global_getattr [("Points", 1)] [] (fun _ => some 2) "Points" = (.ok 1, []) ∧
    global_getattr ([] : List (String × Nat)) [] (fun _ => some 2) "Lines"
      = (.ok 2, [.namedObjectLookup "Lines"]) := by
  exact ⟨(C6_global_resolution_order [("Points", 1)] [] (fun _ => some 2) "Points").1
      1 (by decide),
    (C6_global_resolution_order ([] : List (String × Nat)) [] (fun _ => some 2) "Lines").2.1
      2 (by decide) rfl⟩

/- ======================================================================
   Enumerated properties  (plxproxy.py, PlxProxyIPEnumeration)
   ====================================================================== -/

/-- `PlxProxyIPEnumeration.strvalue` getter: scan the symbolic-name to
ordinal table (`enum_dict`) for the first entry whose ordinal matches the
current value; raise a ValueError when none matches (a schema desync, not a
usage error). -/
def strvalue_get (enum_pairs : List (String × Nat)) (value : Nat) :
    Except String String :=
  match enum_pairs.find? (fun p => p.2 == value) with
  | some p => .ok p.1
  | none => .error ("Invalid enum value " ++ toString value)

/-- `PlxProxyIPEnumeration.strvalue` setter: validate that the symbolic
name is a member of the table before sending anything; on success exactly
one property-set request carrying the matching ordinal is sent (the request
log is the first component). -/
def strvalue_set (enum_pairs : List (String × Nat)) (s : String) :
    List Nat × Except String Nat :=
  match alookup enum_pairs s with
  | none => ([], .error ("Invalid enum name " ++ s))
  | some o => ([o], .ok o)

/-- In a table with pairwise-distinct ordinals, the first entry matching the
ordinal stored under name `s` is the entry of `s` itself. -/
theorem find_by_ordinal (enum_pairs : List (String × Nat))
    (hord : (enum_pairs.map Prod.snd).Nodup) {s : String} {o : Nat}
    (h : alookup enum_pairs s = some o) :
    enum_pairs.find? (fun p => p.2 == o) = some (s, o) := by
  induction enum_pairs with
  | nil => simp [alookup] at h
  | cons p ps ih =>
    simp only [List.map_cons, List.nodup_cons] at hord
    by_cases hpo : p.2 = o
    · rw [List.find?_cons_of_pos _ (by simp [hpo])]
      by_cases hps : p.1 = s
      · rw [alookup_cons, if_pos hps] at h
        have hpv : p.2 = o := Option.some.inj h
        cases p
        simp_all
      · rw [alookup_cons, if_neg hps] at h
        exfalso
        have hmem : (s, o) ∈ ps := alookup_mem h
        have ho : o ∈ ps.map Prod.snd := List.mem_map.mpr ⟨(s, o), hmem, rfl⟩
        exact hord.1 (hpo ▸ ho)
    · rw [List.find?_cons_of_neg _ (by simp [hpo])]
      by_cases hps : p.1 = s
      · rw [alookup_cons, if_pos hps] at h
        exact absurd (Option.some.inj h) hpo
      · rw [alookup_cons, if_neg hps] at h
        exact ih hord.2 h

/-- Claim C8: for every enumerated property: writing a symbolic name not in
the enumeration's name-to-ordinal table raises a ValueError before any
gateway request is sent (the request log is empty); writing a valid
symbolic name sends exactly the matching ordinal, and — the ordinals being
pairwise distinct, as a symbolic-name/ordinal table requires — reading the
property back at that ordinal returns that same name; and reading when the
current ordinal matches no symbolic name raises a ValueError. -/
theorem C8_enum_round_trip (enum_pairs : List (String × Nat)) (s : String)
    (v o : Nat) :
    (alookup enum_pairs s = none →
      strvalue_set enum_pairs s = ([], .error ("Invalid enum name " ++ s))) ∧
    ((enum_pairs.map Prod.snd).Nodup → alookup enum_pairs s = some o →
      strvalue_set enum_pairs s = ([o], .ok o) ∧
      strvalue_get enum_pairs o = .ok s) ∧
    ((∀ p ∈ enum_pairs, p.2 ≠ v) →
      strvalue_get enum_pairs v = .error ("Invalid enum value " ++ toString v)) := by
  refine ⟨?_, ?_, ?_⟩
  · intro hn
    simp [strvalue_set, hn]
  · intro hord ho
    refine ⟨by simp [strvalue_set, ho], ?_⟩
    rw [strvalue_get, find_by_ordinal enum_pairs hord ho]
  · intro hv
    have hfind : enum_pairs.find? (fun p => p.2 == v) = none := by
      rw [List.find?_eq_none]
      intro p hp
      simp [hv p hp]
    rw [strvalue_get, hfind]

/-- Witness for C8 at the concrete table [("Drained", 0), ("Undrained", 1)]:
writing the invalid name "Wet" errors with no request sent; writing
"Undrained" sends ordinal 1 and reading ordinal 1 back yields "Undrained";
the unmatched ordinal 5 errors on read. -/
theorem C8_enum_round_trip_witness :
    (strvalue_set [("Drained", 0), ("Undrained", 1)] "Wet"
      = ([], .error ("Invalid enum name " ++ "Wet"))) ∧
    (strvalue_set [("Drained", 0), ("Undrained", 1)] "Undrained" = ([1], .ok 1) ∧
      strvalue_get [("Drained", 0), ("Undrained", 1)] 1 = .ok "Undrained") ∧
    (strvalue_get [("Drained", 0), ("Undrained", 1)] 5
      = .error ("Invalid enum value " ++ toString 5)) := by
  have h := C8_enum_round_trip [("Drained", 0), ("Undrained", 1)] "Undrained" 5 1
  have h' := C8_enum_round_trip [("Drained", 0), ("Undrained", 1)] "Wet" 5 1
  exact ⟨h'.1 (by decide), h.2.1 (by decide) (by decide), h.2.2 (by decide)⟩

/- ======================================================================
   Listable collections  (plxproxy.py, PlxProxyListable)
   ====================================================================== -/

/-- The remote collection behind a listable proxy, as fixed by the Request
Gateway contract: a count, the element at each start index (negative
indices are forwarded to the server unchanged, hence `Int`), and an opaque
result for slice queries whose raw slice bounds are forwarded verbatim. -/
structure RemoteList (α : Type) : Type where
  len : Nat
  elemI : Int → α
  sliceResult : Option Int → Option Int → List α

/-- Listable-method invocations issued by the proxy to the Session. -/
inductive LReq : Type
  | count
  | indexQuery (startindex : Int)
  | sublistQuery (startindex stopindex : Option Int)
  deriving DecidableEq, Repr

/-- Gateway contract for an in-range sublist query: the elements at indices
`start, start+1, ..., stop-1`. -/
def sublist {α : Type} (L : RemoteList α) (start stop : Nat) : List α :=
  (List.range' start (stop - start)).map (fun i : Nat => L.elemI (i : Int))

inductive GetItemErr : Type
  | indexError
  | typeError (typeName : String)
  deriving DecidableEq, Repr

inductive ItemResult (α : Type) : Type
  | item (a : α)
  | slicePage (l : List α)
  deriving DecidableEq, Repr

/-- The kinds of key Python can pass to `__getitem__`: an int, a slice, or
anything else. -/
inductive ListKey : Type
  | intKey (k : Int)
  | sliceKey (startindex stopindex : Option Int)
  | otherKey (typeName : String)
  deriving DecidableEq, Repr

/-- `PlxProxyListable.__getitem__`: a slice is forwarded to the SUBLIST
query with its original bounds; a non-int, non-slice key raises a TypeError
locally with no request issued; an int key first issues the COUNT query
(`len(self)`), raises IndexError locally when `key >= length`, and
otherwise issues the INDEX query with the key as start index — negative
keys included. -/
def listable_getitem {α : Type} (L : RemoteList α) (key : ListKey) :
    List LReq × Except GetItemErr (ItemResult α) :=
  match key with
  | .sliceKey a b => ([.sublistQuery a b], .ok (.slicePage (L.sliceResult a b)))
  | .otherKey t => ([], .error (.typeError t))
  | .intKey k =>
    if (L.len : Int) ≤ k then ([.count], .error .indexError)
    else ([.count, .indexQuery k], .ok (.item (L.elemI k)))

/-- `PlxProxyListable.ITER_CACHE_COUNT`: the fixed iteration page size. -/
def ITER_CACHE_COUNT : Nat := 100

/-- The (startindex, stopindex) windows requested by
`PlxProxyListable.__iter__` when paging from `start`: while
`start < length`, the window `[start, min (start + ITER_CACHE_COUNT)
length)` is requested and paging continues from its stop index. -/
def iter_pages (len start : Nat) : List (Nat × Nat) :=
  if _h : start < len then
    (start, min (start + ITER_CACHE_COUNT) len)
      :: iter_pages len (min (start + ITER_CACHE_COUNT) len)
  else []
termination_by len - start
decreasing_by
  simp only [ITER_CACHE_COUNT]
  omega

/-- The element sequence produced by one full (fresh) `__iter__` run: the
concatenation of the pages' sublist responses, paging from index 0. -/
def listable_iter {α : Type} (L : RemoteList α) : List α :=
  ((iter_pages L.len 0).map (fun p => sublist L p.1 p.2)).flatten

theorem iter_pages_flatten {α : Type} (L : RemoteList α) (len : Nat) :
    ∀ start, ((iter_pages len start).map (fun p => sublist L p.1 p.2)).flatten
      = (List.range' start (len - start)).map (fun i : Nat => L.elemI (i : Int)) := by
  have main : ∀ fuel start, len - start ≤ fuel →
      ((iter_pages len start).map (fun p => sublist L p.1 p.2)).flatten
        = (List.range' start (len - start)).map (fun i : Nat => L.elemI (i : Int)) := by
    intro fuel
    induction fuel with
    | zero =>
      intro start hle
      have hns : ¬ start < len := by omega
      rw [iter_pages, dif_neg hns]
      have h0 : len - start = 0 := by omega
      simp [h0]
    | succ fuel ih =>
      intro start hle
      by_cases h : start < len
      · rw [iter_pages, dif_pos h]
        have hicc : ITER_CACHE_COUNT = 100 := rfl
        have hsm : start < min (start + ITER_CACHE_COUNT) len := by
          rw [hicc]
          omega
        have hml : min (start + ITER_CACHE_COUNT) len ≤ len := by omega
        have hfuel : len - min (start + ITER_CACHE_COUNT) len ≤ fuel := by omega
        simp only [List.map_cons, List.flatten_cons, ih _ hfuel]
        have h1 : start + (min (start + ITER_CACHE_COUNT) len - start)
            = min (start + ITER_CACHE_COUNT) len := by omega
        have h2 : (len - min (start + ITER_CACHE_COUNT) len)
            + (min (start + ITER_CACHE_COUNT) len - start) = len - start := by omega
        have hranges :
            List.range' start (min (start + ITER_CACHE_COUNT) len - start)
              ++ List.range' (min (start + ITER_CACHE_COUNT) len)
                  (len - min (start + ITER_CACHE_COUNT) len)
            = List.range' start (len - start) := by
          calc
            List.range' start (min (start + ITER_CACHE_COUNT) len - start)
                ++ List.range' (min (start + ITER_CACHE_COUNT) len)
                    (len - min (start + ITER_CACHE_COUNT) len)
              = List.range' start (min (start + ITER_CACHE_COUNT) len - start)
                ++ List.range' (start + (min (start + ITER_CACHE_COUNT) len - start))
                    (len - min (start + ITER_CACHE_COUNT) len) := by rw [h1]
            _ = List.range' start ((len - min (start + ITER_CACHE_COUNT) len)
                  + (min (start + ITER_CACHE_COUNT) len - start)) :=
                List.range'_append_1 _ _ _
            _ = List.range' start (len - start) := by rw [h2]
        rw [sublist, ← List.map_append, hranges]
      · rw [iter_pages, dif_neg h]
        have h0 : len - start = 0 := by omega
        simp [h0]
  exact fun start => main (len - start) start (Nat.le_refl _)

theorem iter_pages_shape (len : Nat) :
    ∀ start,
      (∀ p ∈ iter_pages len start,
        p.1 < p.2 ∧ p.2 - p.1 ≤ ITER_CACHE_COUNT ∧ p.2 ≤ len) ∧
      List.Chain' (fun p q : Nat × Nat => p.2 = q.1) (iter_pages len start) ∧
      (start < len →
        (iter_pages len start).head?
          = some (start, min (start + ITER_CACHE_COUNT) len)) := by
  have main : ∀ fuel start, len - start ≤ fuel →
      (∀ p ∈ iter_pages len start,
        p.1 < p.2 ∧ p.2 - p.1 ≤ ITER_CACHE_COUNT ∧ p.2 ≤ len) ∧
      List.Chain' (fun p q : Nat × Nat => p.2 = q.1) (iter_pages len start) ∧
      (start < len →
        (iter_pages len start).head?
          = some (start, min (start + ITER_CACHE_COUNT) len)) := by
    intro fuel
    induction fuel with
    | zero =>
      intro start hle
      have hns : ¬ start < len := by omega
      rw [iter_pages, dif_neg hns]
      exact ⟨by simp, by simp, fun hc => absurd hc hns⟩
    | succ fuel ih =>
      intro start hle
      by_cases h : start < len
      · have hicc : ITER_CACHE_COUNT = 100 := rfl
        have hsm : start < min (start + ITER_CACHE_COUNT) len := by
          rw [hicc]
          omega
        have hml : min (start + ITER_CACHE_COUNT) len ≤ len := by omega
        have hfuel : len - min (start + ITER_CACHE_COUNT) len ≤ fuel := by omega
        have htail := ih (min (start + ITER_CACHE_COUNT) len) hfuel
        rw [iter_pages, dif_pos h]
        refine ⟨?_, ?_, fun _ => rfl⟩
        · intro p hp
          rcases List.mem_cons.mp hp with hp | hp
          · subst hp
            refine ⟨hsm, ?_, hml⟩
            simp only []
            omega
          · exact htail.1 p hp
        · rw [List.chain'_cons']
          refine ⟨?_, htail.2.1⟩
          intro q hq
          by_cases hm : min (start + ITER_CACHE_COUNT) len < len
          · rw [htail.2.2 hm] at hq
            simp only [Option.mem_def, Option.some.injEq] at hq
            subst hq
            rfl
          · rw [iter_pages, dif_neg hm] at hq
            simp at hq
      · rw [iter_pages, dif_neg h]
        exact ⟨by simp, by simp, fun hc => absurd hc h⟩
  exact fun start => main (len - start) start (Nat.le_refl _)

/-- Claim C5: for every listable collection of length N: a full iteration
yields exactly the ordered element sequence of indices 0 through N-1 — the
same elements direct single-index access returns at each of those indices;
every page window requested by the iteration spans at most
ITER_CACHE_COUNT = 100 elements and is non-empty; the windows are
contiguous in ascending index order; and a fresh iteration restarts paging
from index 0. -/
theorem C5_pagination_equivalence {α : Type} (L : RemoteList α) :
    (listable_iter L = (List.range L.len).map (fun i : Nat => L.elemI (i : Int))) ∧
    (∀ i : Nat, i < L.len →
      listable_getitem L (.intKey (i : Int))
        = ([.count, .indexQuery (i : Int)], .ok (.item (L.elemI (i : Int))))) ∧
    (∀ p ∈ iter_pages L.len 0,
      p.1 < p.2 ∧ p.2 - p.1 ≤ ITER_CACHE_COUNT ∧ p.2 ≤ L.len) ∧
    List.Chain' (fun p q : Nat × Nat => p.2 = q.1) (iter_pages L.len 0) ∧
    (0 < L.len →
      (iter_pages L.len 0).head? = some (0, min ITER_CACHE_COUNT L.len)) := by
  have hflat := iter_pages_flatten L L.len 0
  have hshape := iter_pages_shape L.len 0
  refine ⟨?_, ?_, hshape.1, hshape.2.1, ?_⟩
  · rw [listable_iter, hflat, Nat.sub_zero, List.range_eq_range']
  · intro i hi
    have hni : ¬ ((L.len : Int) ≤ (i : Int)) := by
      omega
    simp [listable_getitem, hni]
  · intro hlen
    have hh := hshape.2.2 hlen
    simpa using hh

/-- Witness for C5 at the concrete two-element collection: direct index
access at position 1 issues COUNT then INDEX 1 and returns the element, and
a fresh iteration's first page starts at index 0. -/
theorem C5_pagination_equivalence_witness :
    listable_getitem (⟨2, fun i => i, fun _ _ => []⟩ : RemoteList Int)
        (.intKey ((1 : Nat) : Int))
      = ([.count, .indexQuery ((1 : Nat) : Int)], .ok (.item ((1 : Nat) : Int))) ∧
    (iter_pages 2 0).head? = some (0, min ITER_CACHE_COUNT 2) := by
  have h := C5_pagination_equivalence (⟨2, fun i => i, fun _ _ => []⟩ : RemoteList Int)
  exact ⟨h.2.1 1 (by decide), h.2.2.2.2 (by decide)⟩

/-- Claim C10: for every integer index k < 0, single-index access on a
listable proxy raises no local IndexError — the COUNT query for the length
check is issued and then the INDEX query is sent with the negative start
index — because the local out-of-range check fires only for k ≥ length;
and only a non-int, non-slice key raises a local TypeError, with no request
issued. -/
theorem C10_negative_index {α : Type} (L : RemoteList α) (k : Int) (t : String) :
    (k < 0 →
      listable_getitem L (.intKey k)
        = ([.count, .indexQuery k], .ok (.item (L.elemI k)))) ∧
    ((L.len : Int) ≤ k →
      listable_getitem L (.intKey k) = ([.count], .error .indexError)) ∧
    (listable_getitem L (.otherKey t) = ([], .error (.typeError t))) := by
  refine ⟨?_, ?_, rfl⟩
  · intro hk
    have hni : ¬ ((L.len : Int) ≤ k) := by omega
    simp [listable_getitem, hni]
  · intro hk
    simp [listable_getitem, hk]

/-- Witness for C10 at a concrete three-element collection: index -1 issues
COUNT then INDEX -1 with no IndexError; index 5 raises the local
IndexError after the COUNT; a string key raises TypeError with no
request. -/
theorem C10_negative_index_witness :
    (listable_getitem (⟨3, fun i => i, fun _ _ => []⟩ : RemoteList Int) (.intKey (-1))
      = ([.count, .indexQuery (-1)], .ok (.item (-1)))) ∧
    (listable_getitem (⟨3, fun i => i, fun _ _ => []⟩ : RemoteList Int) (.intKey 5)
      = ([.count], .error .indexError)) ∧
    (listable_getitem (⟨3, fun i => i, fun _ _ => []⟩ : RemoteList Int) (.otherKey "str")
      = ([], .error (.typeError "str"))) := by
  have h := C10_negative_index (⟨3, fun i => i, fun _ _ => []⟩ : RemoteList Int) (-1) "str"
  have h5 := C10_negative_index (⟨3, fun i => i, fun _ _ => []⟩ : RemoteList Int) 5 "str"
  exact ⟨h.1 (by decide), h5.2.1 (by decide), h.2.2⟩
